import Mathlib

/-!
Shallow embedding of the matrix/vector algebra library and transformation
stack of the GoGLutils repository (package goglutils: the Mat4/Vec4 file
and matrixstack.go).

Conventions of the embedding:
* `gl.Float` is modelled as `ℚ` (exact arithmetic standing in for the
  floating point element type); the external math-library calls
  (`math.Sqrt`, `math.Cos`, `math.Sin`, `math.Tan`, and the constant
  `math.Pi`) are modelled as an oracle record `GLMath`, since their values
  are opaque library calls in the source.
* A Go `*Mat4` that may be nil is modelled as `Option Mat4`; a nil-pointer
  dereference (runtime panic) is modelled as `none` at the state level.
* Go slices become `List`; in-range indexing under a length guard is
  modelled with `List.getD _ 0`.
* `(T, error)` returns become `Except String T` carrying the source's
  error messages.
-/

namespace GoGLutils

abbrev GLFloat := ℚ

/-- Oracle for the external math-library functions used by the source
(`math.Sin`, `math.Cos`, `math.Tan`, `math.Sqrt`, `math.Pi`). -/
structure GLMath where
  sinF : GLFloat → GLFloat
  cosF : GLFloat → GLFloat
  tanF : GLFloat → GLFloat
  sqrtF : GLFloat → GLFloat
  piF : GLFloat

/-- Vec4 struct: four gl.Float components X, Y, Z, W. -/
structure Vec4 where
  x : GLFloat
  y : GLFloat
  z : GLFloat
  w : GLFloat
deriving DecidableEq

/-- Mat4: `[4]Vec4`, four column vectors (column-major storage). -/
structure Mat4 where
  c0 : Vec4
  c1 : Vec4
  c2 : Vec4
  c3 : Vec4
deriving DecidableEq

/-- `SinGL`, a thin wrapper over `math.Sin`. -/
def SinGL (g : GLMath) (rad : GLFloat) : GLFloat := g.sinF rad

/-- `CosGL`, a thin wrapper over `math.Cos`. -/
def CosGL (g : GLMath) (rad : GLFloat) : GLFloat := g.cosF rad

/-- `TanGL`, a thin wrapper over `math.Tan`. -/
def TanGL (g : GLMath) (rad : GLFloat) : GLFloat := g.tanF rad

/-- The package constant `degToRad = math.Pi * 2.0 / 360`. -/
def degToRadC (g : GLMath) : GLFloat := g.piF * 2 / 360

/-- `DegToRad(fAngDeg) = fAngDeg * degToRad`. -/
def DegToRad (g : GLMath) (fAngDeg : GLFloat) : GLFloat := fAngDeg * degToRadC g

/-- `IdentMat4`: the identity matrix (zero matrix with the four diagonal
entries set to 1). -/
def IdentMat4 : Mat4 :=
  ⟨⟨1, 0, 0, 0⟩, ⟨0, 1, 0, 0⟩, ⟨0, 0, 1, 0⟩, ⟨0, 0, 0, 1⟩⟩

/-- `Vec4.Normalize`: in-place normalization; divides X, Y, Z by
`Sqrt(X*X + Y*Y + Z*Z)` and does not touch W. Modelled functionally
(the returned value is the mutated receiver). -/
def Vec4.Normalize (g : GLMath) (v : Vec4) : Vec4 :=
  let lenv := g.sqrtF (v.x * v.x + v.y * v.y + v.z * v.z)
  { v with x := v.x / lenv, y := v.y / lenv, z := v.z / lenv }

/-- `Mat4.MulM`: column-major 4x4 matrix product `m1 * m2`. -/
def Mat4.MulM (m1 m2 : Mat4) : Mat4 :=
  ⟨⟨m1.c0.x * m2.c0.x + m1.c1.x * m2.c0.y + m1.c2.x * m2.c0.z + m1.c3.x * m2.c0.w,
    m1.c0.y * m2.c0.x + m1.c1.y * m2.c0.y + m1.c2.y * m2.c0.z + m1.c3.y * m2.c0.w,
    m1.c0.z * m2.c0.x + m1.c1.z * m2.c0.y + m1.c2.z * m2.c0.z + m1.c3.z * m2.c0.w,
    m1.c0.w * m2.c0.x + m1.c1.w * m2.c0.y + m1.c2.w * m2.c0.z + m1.c3.w * m2.c0.w⟩,
   ⟨m1.c0.x * m2.c1.x + m1.c1.x * m2.c1.y + m1.c2.x * m2.c1.z + m1.c3.x * m2.c1.w,
    m1.c0.y * m2.c1.x + m1.c1.y * m2.c1.y + m1.c2.y * m2.c1.z + m1.c3.y * m2.c1.w,
    m1.c0.z * m2.c1.x + m1.c1.z * m2.c1.y + m1.c2.z * m2.c1.z + m1.c3.z * m2.c1.w,
    m1.c0.w * m2.c1.x + m1.c1.w * m2.c1.y + m1.c2.w * m2.c1.z + m1.c3.w * m2.c1.w⟩,
   ⟨m1.c0.x * m2.c2.x + m1.c1.x * m2.c2.y + m1.c2.x * m2.c2.z + m1.c3.x * m2.c2.w,
    m1.c0.y * m2.c2.x + m1.c1.y * m2.c2.y + m1.c2.y * m2.c2.z + m1.c3.y * m2.c2.w,
    m1.c0.z * m2.c2.x + m1.c1.z * m2.c2.y + m1.c2.z * m2.c2.z + m1.c3.z * m2.c2.w,
    m1.c0.w * m2.c2.x + m1.c1.w * m2.c2.y + m1.c2.w * m2.c2.z + m1.c3.w * m2.c2.w⟩,
   ⟨m1.c0.x * m2.c3.x + m1.c1.x * m2.c3.y + m1.c2.x * m2.c3.z + m1.c3.x * m2.c3.w,
    m1.c0.y * m2.c3.x + m1.c1.y * m2.c3.y + m1.c2.y * m2.c3.z + m1.c3.y * m2.c3.w,
    m1.c0.z * m2.c3.x + m1.c1.z * m2.c3.y + m1.c2.z * m2.c3.z + m1.c3.z * m2.c3.w,
    m1.c0.w * m2.c3.x + m1.c1.w * m2.c3.y + m1.c2.w * m2.c3.z + m1.c3.w * m2.c3.w⟩⟩

/-- `Mat4.Scale`: builds a scale matrix from IdentMat4 by overwriting the
first three diagonal entries with s.X, s.Y, s.Z, then returns `m * scaleMat`. -/
def Mat4.Scale (m : Mat4) (s : Vec4) : Mat4 :=
  let scaleMat := IdentMat4
  let scaleMat := { scaleMat with c0 := { scaleMat.c0 with x := s.x } }
  let scaleMat := { scaleMat with c1 := { scaleMat.c1 with y := s.y } }
  let scaleMat := { scaleMat with c2 := { scaleMat.c2 with z := s.z } }
  m.MulM scaleMat

/-- `Mat4.Translate`: builds a translation matrix from IdentMat4 by
overwriting the last column's X, Y, Z with the offset, then returns `m * tm`. -/
def Mat4.Translate (m : Mat4) (offset : Vec4) : Mat4 :=
  let tm := IdentMat4
  let tm := { tm with c3 := { tm.c3 with x := offset.x } }
  let tm := { tm with c3 := { tm.c3 with y := offset.y } }
  let tm := { tm with c3 := { tm.c3 with z := offset.z } }
  m.MulM tm

/-- `RotateX`: rotation matrix about X for an angle in degrees. -/
def RotateX (g : GLMath) (fAngDeg : GLFloat) : Mat4 :=
  let fAngRad := DegToRad g fAngDeg
  let fCos := CosGL g fAngRad
  let fSin := SinGL g fAngRad
  let theMat := IdentMat4
  let theMat := { theMat with c1 := { theMat.c1 with y := fCos } }
  let theMat := { theMat with c2 := { theMat.c2 with y := -fSin } }
  let theMat := { theMat with c1 := { theMat.c1 with z := fSin } }
  let theMat := { theMat with c2 := { theMat.c2 with z := fCos } }
  theMat

/-- `RotateY`: rotation matrix about Y for an angle in degrees. -/
def RotateY (g : GLMath) (fAngDeg : GLFloat) : Mat4 :=
  let fAngRad := DegToRad g fAngDeg
  let fCos := CosGL g fAngRad
  let fSin := SinGL g fAngRad
  let theMat := IdentMat4
  let theMat := { theMat with c0 := { theMat.c0 with x := fCos } }
  let theMat := { theMat with c2 := { theMat.c2 with x := fSin } }
  let theMat := { theMat with c0 := { theMat.c0 with z := -fSin } }
  let theMat := { theMat with c2 := { theMat.c2 with z := fCos } }
  theMat

/-- `RotateZ`: rotation matrix about Z for an angle in degrees. -/
def RotateZ (g : GLMath) (fAngDeg : GLFloat) : Mat4 :=
  let fAngRad := DegToRad g fAngDeg
  let fCos := CosGL g fAngRad
  let fSin := SinGL g fAngRad
  let theMat := IdentMat4
  let theMat := { theMat with c0 := { theMat.c0 with x := fCos } }
  let theMat := { theMat with c1 := { theMat.c1 with x := -fSin } }
  let theMat := { theMat with c0 := { theMat.c0 with y := fSin } }
  let theMat := { theMat with c1 := { theMat.c1 with y := fCos } }
  theMat

/-- `Mat4.Copy`: starts from IdentMat4 and overwrites every component of
every column with the receiver's; the net result duplicates the matrix. -/
def Mat4.Copy (m : Mat4) : Mat4 :=
  ⟨⟨m.c0.x, m.c0.y, m.c0.z, m.c0.w⟩,
   ⟨m.c1.x, m.c1.y, m.c1.z, m.c1.w⟩,
   ⟨m.c2.x, m.c2.y, m.c2.z, m.c2.w⟩,
   ⟨m.c3.x, m.c3.y, m.c3.z, m.c3.w⟩⟩

/-- `Mat4.ToArray`: flatten to 16 gl.Floats, looping over the columns and
emitting X, Y, Z, W of each — i.e. column-major order. -/
def Mat4.ToArray (m : Mat4) : List GLFloat :=
  [m.c0.x, m.c0.y, m.c0.z, m.c0.w,
   m.c1.x, m.c1.y, m.c1.z, m.c1.w,
   m.c2.x, m.c2.y, m.c2.z, m.c2.w,
   m.c3.x, m.c3.y, m.c3.z, m.c3.w]

/-- `FromArray`: fails when fewer than 16 elements are supplied, otherwise
reads entries 0..15 column-wise (`rm[i].X = arr[i*4]`, ...); any tail
beyond index 15 is never read. -/
def FromArray (arr : List GLFloat) : Except String Mat4 :=
  if arr.length < 16 then Except.error "Need 16-element float array"
  else Except.ok
    ⟨⟨arr.getD 0 0, arr.getD 1 0, arr.getD 2 0, arr.getD 3 0⟩,
     ⟨arr.getD 4 0, arr.getD 5 0, arr.getD 6 0, arr.getD 7 0⟩,
     ⟨arr.getD 8 0, arr.getD 9 0, arr.getD 10 0, arr.getD 11 0⟩,
     ⟨arr.getD 12 0, arr.getD 13 0, arr.getD 14 0, arr.getD 15 0⟩⟩

/-- Shorthand for the in-range slice indexing `m[i]` used by `Invert`
(guarded by the length-16 check, so the default is never taken). -/
def idx (m : List GLFloat) (i : Nat) : GLFloat := m.getD i 0

/-- `inv[0]` of `Invert`. -/
def inv0 (m : List GLFloat) : GLFloat :=
  idx m 5 * idx m 10 * idx m 15 - idx m 5 * idx m 11 * idx m 14 -
  idx m 9 * idx m 6 * idx m 15 + idx m 9 * idx m 7 * idx m 14 +
  idx m 13 * idx m 6 * idx m 11 - idx m 13 * idx m 7 * idx m 10

/-- `inv[4]` of `Invert`. -/
def inv4 (m : List GLFloat) : GLFloat :=
  -(idx m 4) * idx m 10 * idx m 15 + idx m 4 * idx m 11 * idx m 14 +
  idx m 8 * idx m 6 * idx m 15 - idx m 8 * idx m 7 * idx m 14 -
  idx m 12 * idx m 6 * idx m 11 + idx m 12 * idx m 7 * idx m 10

/-- `inv[8]` of `Invert`. -/
def inv8 (m : List GLFloat) : GLFloat :=
  idx m 4 * idx m 9 * idx m 15 - idx m 4 * idx m 11 * idx m 13 -
  idx m 8 * idx m 5 * idx m 15 + idx m 8 * idx m 7 * idx m 13 +
  idx m 12 * idx m 5 * idx m 11 - idx m 12 * idx m 7 * idx m 9

/-- `inv[12]` of `Invert`. -/
def inv12 (m : List GLFloat) : GLFloat :=
  -(idx m 4) * idx m 9 * idx m 14 + idx m 4 * idx m 10 * idx m 13 +
  idx m 8 * idx m 5 * idx m 14 - idx m 8 * idx m 6 * idx m 13 -
  idx m 12 * idx m 5 * idx m 10 + idx m 12 * idx m 6 * idx m 9

/-- `inv[1]` of `Invert`. -/
def inv1 (m : List GLFloat) : GLFloat :=
  -(idx m 1) * idx m 10 * idx m 15 + idx m 1 * idx m 11 * idx m 14 +
  idx m 9 * idx m 2 * idx m 15 - idx m 9 * idx m 3 * idx m 14 -
  idx m 13 * idx m 2 * idx m 11 + idx m 13 * idx m 3 * idx m 10

/-- `inv[5]` of `Invert`. -/
def inv5 (m : List GLFloat) : GLFloat :=
  idx m 0 * idx m 10 * idx m 15 - idx m 0 * idx m 11 * idx m 14 -
  idx m 8 * idx m 2 * idx m 15 + idx m 8 * idx m 3 * idx m 14 +
  idx m 12 * idx m 2 * idx m 11 - idx m 12 * idx m 3 * idx m 10

/-- `inv[9]` of `Invert`. -/
def inv9 (m : List GLFloat) : GLFloat :=
  -(idx m 0) * idx m 9 * idx m 15 + idx m 0 * idx m 11 * idx m 13 +
  idx m 8 * idx m 1 * idx m 15 - idx m 8 * idx m 3 * idx m 13 -
  idx m 12 * idx m 1 * idx m 11 + idx m 12 * idx m 3 * idx m 9

/-- `inv[13]` of `Invert`. -/
def inv13 (m : List GLFloat) : GLFloat :=
  idx m 0 * idx m 9 * idx m 14 - idx m 0 * idx m 10 * idx m 13 -
  idx m 8 * idx m 1 * idx m 14 + idx m 8 * idx m 2 * idx m 13 +
  idx m 12 * idx m 1 * idx m 10 - idx m 12 * idx m 2 * idx m 9

/-- `inv[2]` of `Invert`. -/
def inv2 (m : List GLFloat) : GLFloat :=
  idx m 1 * idx m 6 * idx m 15 - idx m 1 * idx m 7 * idx m 14 -
  idx m 5 * idx m 2 * idx m 15 + idx m 5 * idx m 3 * idx m 14 +
  idx m 13 * idx m 2 * idx m 7 - idx m 13 * idx m 3 * idx m 6

/-- `inv[6]` of `Invert`. -/
def inv6 (m : List GLFloat) : GLFloat :=
  -(idx m 0) * idx m 6 * idx m 15 + idx m 0 * idx m 7 * idx m 14 +
  idx m 4 * idx m 2 * idx m 15 - idx m 4 * idx m 3 * idx m 14 -
  idx m 12 * idx m 2 * idx m 7 + idx m 12 * idx m 3 * idx m 6

/-- `inv[10]` of `Invert`. -/
def inv10 (m : List GLFloat) : GLFloat :=
  idx m 0 * idx m 5 * idx m 15 - idx m 0 * idx m 7 * idx m 13 -
  idx m 4 * idx m 1 * idx m 15 + idx m 4 * idx m 3 * idx m 13 +
  idx m 12 * idx m 1 * idx m 7 - idx m 12 * idx m 3 * idx m 5

/-- `inv[14]` of `Invert`. -/
def inv14 (m : List GLFloat) : GLFloat :=
  -(idx m 0) * idx m 5 * idx m 14 + idx m 0 * idx m 6 * idx m 13 +
  idx m 4 * idx m 1 * idx m 14 - idx m 4 * idx m 2 * idx m 13 -
  idx m 12 * idx m 1 * idx m 6 + idx m 12 * idx m 2 * idx m 5

/-- `inv[3]` of `Invert`. -/
def inv3 (m : List GLFloat) : GLFloat :=
  -(idx m 1) * idx m 6 * idx m 11 + idx m 1 * idx m 7 * idx m 10 +
  idx m 5 * idx m 2 * idx m 11 - idx m 5 * idx m 3 * idx m 10 -
  idx m 9 * idx m 2 * idx m 7 + idx m 9 * idx m 3 * idx m 6

/-- `inv[7]` of `Invert`. -/
def inv7 (m : List GLFloat) : GLFloat :=
  idx m 0 * idx m 6 * idx m 11 - idx m 0 * idx m 7 * idx m 10 -
  idx m 4 * idx m 2 * idx m 11 + idx m 4 * idx m 3 * idx m 10 +
  idx m 8 * idx m 2 * idx m 7 - idx m 8 * idx m 3 * idx m 6

/-- `inv[11]` of `Invert`. -/
def inv11 (m : List GLFloat) : GLFloat :=
  -(idx m 0) * idx m 5 * idx m 11 + idx m 0 * idx m 7 * idx m 9 +
  idx m 4 * idx m 1 * idx m 11 - idx m 4 * idx m 3 * idx m 9 -
  idx m 8 * idx m 1 * idx m 7 + idx m 8 * idx m 3 * idx m 5

/-- `inv[15]` of `Invert`. -/
def inv15 (m : List GLFloat) : GLFloat :=
  idx m 0 * idx m 5 * idx m 10 - idx m 0 * idx m 6 * idx m 9 -
  idx m 4 * idx m 1 * idx m 10 + idx m 4 * idx m 2 * idx m 9 +
  idx m 8 * idx m 1 * idx m 6 - idx m 8 * idx m 2 * idx m 5

/-- `det := m[0]*inv[0] + m[1]*inv[4] + m[2]*inv[8] + m[3]*inv[12]`,
the cofactor-expansion determinant computed by `Invert`. -/
def invDet (m : List GLFloat) : GLFloat :=
  idx m 0 * inv0 m + idx m 1 * inv4 m + idx m 2 * inv8 m + idx m 3 * inv12 m

/-- `Invert`: MESA-derived flat-array 4x4 inversion. Rejects inputs whose
length is not exactly 16; fails when the determinant is exactly zero;
otherwise returns `invOut[i] = inv[i] * (1/det)` for i = 0..15. -/
def Invert (m : List GLFloat) : Except String (List GLFloat) :=
  if m.length ≠ 16 then Except.error "Not a 4x4 matrix, needs 16 elements"
  else if invDet m = 0 then Except.error "No inverse for this matrix!"
  else
    let d := 1 / invDet m
    Except.ok
      [inv0 m * d, inv1 m * d, inv2 m * d, inv3 m * d,
       inv4 m * d, inv5 m * d, inv6 m * d, inv7 m * d,
       inv8 m * d, inv9 m * d, inv10 m * d, inv11 m * d,
       inv12 m * d, inv13 m * d, inv14 m * d, inv15 m * d]

/-- `Mat4.Inverse`: flattens, runs `Invert`, and rebuilds via `FromArray`
on success; returns a nil pointer (modelled `none`) when `Invert` fails
(and would return nil were the ignored `FromArray` error ever set). -/
def Mat4.Inverse (m : Mat4) : Option Mat4 :=
  match Invert m.ToArray with
  | Except.ok outArray =>
      match FromArray outArray with
      | Except.ok outMat => some outMat
      | Except.error _ => none
  | Except.error _ => none

/-- `Ortho`: orthographic projection matrix. -/
def Ortho (left right bottom top nearVal farVal : GLFloat) : Mat4 :=
  let m := IdentMat4
  let m := { m with c0 := { m.c0 with x := 2 / (right - left) } }
  let m := { m with c1 := { m.c1 with y := 2 / (top - bottom) } }
  let m := { m with c2 := { m.c2 with z := -2 / (farVal - nearVal) } }
  let m := { m with c3 := { m.c3 with x := -(right + left) / (right - left) } }
  let m := { m with c3 := { m.c3 with y := -(top + bottom) / (top - bottom) } }
  let m := { m with c3 := { m.c3 with z := -(farVal + nearVal) / (farVal - nearVal) } }
  m

/-- `Perspective`: perspective projection matrix from fov, aspect, near, far. -/
def Perspective (g : GLMath) (fovy aspect zNear zFar : GLFloat) : Mat4 :=
  let f := 1 / TanGL g (fovy / 2)
  let m := IdentMat4
  let m := { m with c0 := { m.c0 with x := f / aspect } }
  let m := { m with c1 := { m.c1 with y := f } }
  let m := { m with c2 := { m.c2 with z := (zFar + zNear) / (zNear - zFar) } }
  let m := { m with c3 := { m.c3 with w := 0 } }
  let m := { m with c2 := { m.c2 with w := -1 } }
  let m := { m with c3 := { m.c3 with z := 2 * zFar * zNear / (zNear - zFar) } }
  m

/-- `Frustum`: validates the parameters and falls back to identity on
failure; otherwise performs the assignment sequence of the source,
including the final `m[2].W = 0.0` that overwrites the earlier
`m[2].W = -1.0`. -/
def Frustum (left right bottom top near far : GLFloat) : Mat4 :=
  let m := IdentMat4
  if (right = left) ∨ (top = bottom) ∨ (near = far) ∨ (near < 0) ∨ (far < 0) then m
  else
    let m := { m with c0 := { m.c0 with x := 2 * near / (right - left) } }
    let m := { m with c1 := { m.c1 with y := 2 * near / (top - bottom) } }
    let m := { m with c2 := { m.c2 with x := (right + left) / (right - left) } }
    let m := { m with c2 := { m.c2 with y := (top + bottom) / (top - bottom) } }
    let m := { m with c2 := { m.c2 with z := -(far + near) / (far - near) } }
    let m := { m with c2 := { m.c2 with w := -1 } }
    let m := { m with c3 := { m.c3 with z := -(2 * far * near) / (far - near) } }
    let m := { m with c2 := { m.c2 with w := 0 } }
    m

/-- `MatrixStack`: a current-matrix pointer (`*Mat4`, hence `Option`)
plus the slice of saved matrices. -/
structure MatrixStack where
  currMat : Option Mat4
  matrices : List Mat4
deriving DecidableEq

/-- `MatrixStack.Init`: sets the current matrix to a fresh identity
matrix; the saved slice is untouched. -/
def MatrixStack.Init (ms : MatrixStack) : MatrixStack :=
  { ms with currMat := some IdentMat4 }

/-- `MatrixStack.Top`: the current-matrix pointer. -/
def MatrixStack.Top (ms : MatrixStack) : Option Mat4 := ms.currMat

/-- The operations of the matrix stack, one constructor per mutating
method of `MatrixStack`. -/
inductive Op where
  | push : Op
  | pop : Op
  | rotateX (deg : GLFloat) : Op
  | rotateY (deg : GLFloat) : Op
  | rotateZ (deg : GLFloat) : Op
  | scale (s : Vec4) : Op
  | translate (offset : Vec4) : Op
  | invert : Op
  | mulM (m : Mat4) : Op
  | ortho (left right bottom top nearVal farVal : GLFloat) : Op
  | perspective (fov aspect zNear zFar : GLFloat) : Op
deriving DecidableEq

/-- One step of the matrix stack. Every method other than `Pop`
dereferences the current-matrix pointer (`ms.currMat.<method>` or
`ms.currMat.Copy()`), so when `currMat` is nil the call panics: that is
modelled by returning `none` for the whole state. `Invert` installs
`currMat.Inverse()`, which is nil on a singular matrix. -/
def apply (g : GLMath) (ms : MatrixStack) : Op → Option MatrixStack
  | Op.push =>
      match ms.currMat with
      | some c => some { ms with matrices := ms.matrices ++ [c.Copy] }
      | none => none
  | Op.pop =>
      match ms.matrices.getLast? with
      | some m => some ⟨some m, ms.matrices.dropLast⟩
      | none => some ms
  | Op.rotateX deg =>
      match ms.currMat with
      | some c => some { ms with currMat := some (c.MulM (RotateX g deg)) }
      | none => none
  | Op.rotateY deg =>
      match ms.currMat with
      | some c => some { ms with currMat := some (c.MulM (RotateY g deg)) }
      | none => none
  | Op.rotateZ deg =>
      match ms.currMat with
      | some c => some { ms with currMat := some (c.MulM (RotateZ g deg)) }
      | none => none
  | Op.scale s =>
      match ms.currMat with
      | some c => some { ms with currMat := some (c.Scale s) }
      | none => none
  | Op.translate offset =>
      match ms.currMat with
      | some c => some { ms with currMat := some (c.Translate offset) }
      | none => none
  | Op.invert =>
      match ms.currMat with
      | some c => some { ms with currMat := c.Inverse }
      | none => none
  | Op.mulM m =>
      match ms.currMat with
      | some c => some { ms with currMat := some (c.MulM m) }
      | none => none
  | Op.ortho left right bottom top nearVal farVal =>
      match ms.currMat with
      | some c => some { ms with currMat := some (c.MulM (Ortho left right bottom top nearVal farVal)) }
      | none => none
  | Op.perspective fov aspect zNear zFar =>
      match ms.currMat with
      | some c => some { ms with currMat := some (c.MulM (Perspective g fov aspect zNear zFar)) }
      | none => none

/-- Runs a sequence of stack operations, propagating a panic (`none`). -/
def applyList (g : GLMath) (ms : MatrixStack) : List Op → Option MatrixStack
  | [] => some ms
  | op :: rest =>
      match apply g ms op with
      | some ms' => applyList g ms' rest
      | none => none

/-- Transform-composing operations: everything except `Push` and `Pop`. -/
def Op.isTransform : Op → Bool
  | Op.push => false
  | Op.pop => false
  | _ => true

/-- A concrete instantiation of the math-library oracle, used to evaluate
the model on inputs whose trigonometric values are irrelevant. -/
def gZero : GLMath := ⟨fun _ => 0, fun _ => 0, fun _ => 0, fun _ => 0, 0⟩

end GoGLutils

deriving instance DecidableEq for Except

namespace GoGLutils

/-- C9: in-place Vec4 normalization divides the x, y, z components by the
Euclidean norm computed over (x, y, z) only (the square root of
x² + y² + z², w not contributing), and leaves the w component unchanged. -/
theorem vec4_normalize_xyz_only (g : GLMath) (v : Vec4) :
    Vec4.Normalize g v =
      ⟨v.x / g.sqrtF (v.x * v.x + v.y * v.y + v.z * v.z),
       v.y / g.sqrtF (v.x * v.x + v.y * v.y + v.z * v.z),
       v.z / g.sqrtF (v.x * v.x + v.y * v.y + v.z * v.z),
       v.w⟩ := rfl

/-- C6: `FromArray` applied to `Mat4.ToArray` round-trips to the original
matrix, and `ToArray` lists the 16 entries in column-major order (all of
column 0's components, then column 1's, then column 2's, then column 3's). -/
theorem fromArray_toArray_roundtrip (m : Mat4) :
    FromArray m.ToArray = Except.ok m ∧
    m.ToArray = [m.c0.x, m.c0.y, m.c0.z, m.c0.w,
                 m.c1.x, m.c1.y, m.c1.z, m.c1.w,
                 m.c2.x, m.c2.y, m.c2.z, m.c2.w,
                 m.c3.x, m.c3.y, m.c3.z, m.c3.w] :=
  ⟨rfl, rfl⟩

/-- C7: `Pop` on an initialized stack whose saved slice is empty is a
no-op, not an error: the current matrix and the (empty) saved slice are
both unchanged. -/
theorem pop_on_empty_noop (g : GLMath) (c : Mat4) :
    apply g ⟨some c, []⟩ Op.pop = some ⟨some c, []⟩ := rfl

/-- C3 (code bug): at the validated parameters
`Frustum(-1, 1, -1, 1, 1, 2)` the source's final `m[2].W = 0.0`
assignment overwrites the earlier `m[2].W = -1.0`, so the w component of
column 2 of the result is 0, not the -1 required by the conventional
OpenGL frustum projection matrix. -/
theorem frustum_col2_w_overwritten :
    (Frustum (-1) 1 (-1) 1 1 2).c2.w = 0 ∧ (Frustum (-1) 1 (-1) 1 1 2).c2.w ≠ -1 := by
  constructor
  · rw [Frustum, if_neg (by norm_num)]
  · rw [Frustum, if_neg (by norm_num)]
    exact (by norm_num : (0 : GLFloat) ≠ -1)

/-- C5: `FromArray` fails with the invalid-length error exactly when the
input has fewer than 16 elements; with 16 or more it succeeds, reading
the first 16 values column-major and ignoring any tail. -/
theorem fromArray_length_spec :
    (∀ arr : List GLFloat,
      FromArray arr = Except.error "Need 16-element float array" ↔ arr.length < 16) ∧
    (∀ a0 a1 a2 a3 a4 a5 a6 a7 a8 a9 a10 a11 a12 a13 a14 a15 : GLFloat,
      ∀ rest : List GLFloat,
      FromArray (a0 :: a1 :: a2 :: a3 :: a4 :: a5 :: a6 :: a7 :: a8 :: a9 ::
                 a10 :: a11 :: a12 :: a13 :: a14 :: a15 :: rest) =
        Except.ok ⟨⟨a0, a1, a2, a3⟩, ⟨a4, a5, a6, a7⟩,
                   ⟨a8, a9, a10, a11⟩, ⟨a12, a13, a14, a15⟩⟩) := by
  constructor
  · intro arr
    by_cases h : arr.length < 16 <;> simp [FromArray, h]
  · intro a0 a1 a2 a3 a4 a5 a6 a7 a8 a9 a10 a11 a12 a13 a14 a15 rest
    rw [FromArray, if_neg (by simp)]
    exact rfl

/-- Witness for C5 at concrete inputs: a 10-element array yields the
invalid-length error, and a 17-element array succeeds, ignoring the tail. -/
theorem fromArray_length_spec_witness :
    FromArray [0, 0, 0, 0, 0, 0, 0, 0, 0, 0] = Except.error "Need 16-element float array" ∧
    FromArray [1, 2, 3, 4, 5, 6, 7, 8, 9, 10, 11, 12, 13, 14, 15, 16, 99] =
      Except.ok ⟨⟨1, 2, 3, 4⟩, ⟨5, 6, 7, 8⟩, ⟨9, 10, 11, 12⟩, ⟨13, 14, 15, 16⟩⟩ :=
  ⟨(fromArray_length_spec.1 [0, 0, 0, 0, 0, 0, 0, 0, 0, 0]).mpr (by decide),
   fromArray_length_spec.2 1 2 3 4 5 6 7 8 9 10 11 12 13 14 15 16 [99]⟩

/-- Helper: `Invert` on a length-16 input with zero determinant returns
the singular-matrix error. -/
theorem invert_eq_error_of_det_zero (m : List GLFloat) (h16 : m.length = 16)
    (hd : invDet m = 0) : Invert m = Except.error "No inverse for this matrix!" := by
  simp [Invert, h16, hd]

/-- Helper: `Invert` on a length-16 input with nonzero determinant
returns the 16 cofactor entries each scaled by the reciprocal of the
determinant. -/
theorem invert_eq_ok_of_det_ne_zero (m : List GLFloat) (h16 : m.length = 16)
    (hd : invDet m ≠ 0) :
    Invert m = Except.ok
      [inv0 m * (1 / invDet m), inv1 m * (1 / invDet m), inv2 m * (1 / invDet m),
       inv3 m * (1 / invDet m), inv4 m * (1 / invDet m), inv5 m * (1 / invDet m),
       inv6 m * (1 / invDet m), inv7 m * (1 / invDet m), inv8 m * (1 / invDet m),
       inv9 m * (1 / invDet m), inv10 m * (1 / invDet m), inv11 m * (1 / invDet m),
       inv12 m * (1 / invDet m), inv13 m * (1 / invDet m), inv14 m * (1 / invDet m),
       inv15 m * (1 / invDet m)] := by
  simp [Invert, h16, hd]

/-- C2: for every 16-element input, the determinant `Invert` tests is the
cofactor expansion `m[0]*inv[0] + m[1]*inv[4] + m[2]*inv[8] + m[3]*inv[12]`;
`Invert` returns the singular-matrix error exactly when that determinant
is zero (no epsilon tolerance), and otherwise returns the 16 adjugate
cofactor entries each scaled by 1/determinant. -/
theorem invert_singular_iff_det_zero
    (a0 a1 a2 a3 a4 a5 a6 a7 a8 a9 a10 a11 a12 a13 a14 a15 : GLFloat) :
    let L := [a0, a1, a2, a3, a4, a5, a6, a7, a8, a9, a10, a11, a12, a13, a14, a15]
    invDet L = a0 * inv0 L + a1 * inv4 L + a2 * inv8 L + a3 * inv12 L ∧
    (Invert L = Except.error "No inverse for this matrix!" ↔ invDet L = 0) ∧
    (invDet L ≠ 0 → Invert L = Except.ok
      [inv0 L * (1 / invDet L), inv1 L * (1 / invDet L), inv2 L * (1 / invDet L),
       inv3 L * (1 / invDet L), inv4 L * (1 / invDet L), inv5 L * (1 / invDet L),
       inv6 L * (1 / invDet L), inv7 L * (1 / invDet L), inv8 L * (1 / invDet L),
       inv9 L * (1 / invDet L), inv10 L * (1 / invDet L), inv11 L * (1 / invDet L),
       inv12 L * (1 / invDet L), inv13 L * (1 / invDet L), inv14 L * (1 / invDet L),
       inv15 L * (1 / invDet L)]) := by
  intro L
  refine ⟨rfl, ⟨fun h => ?_, fun hd => invert_eq_error_of_det_zero L rfl hd⟩, fun hd =>
    invert_eq_ok_of_det_ne_zero L rfl hd⟩
  by_contra hd
  rw [invert_eq_ok_of_det_ne_zero L rfl hd] at h
  exact absurd h (by simp)

/-- Witness for C2: a singular input (two identical rows) produces the
singular-matrix error, and the identity input (determinant 1) produces a
numeric result. -/
theorem invert_singular_iff_det_zero_witness :
    Invert [1, 0, 0, 0, 1, 0, 0, 0, 0, 0, 1, 0, 0, 0, 0, 1] =
      Except.error "No inverse for this matrix!" ∧
    Invert [1, 0, 0, 0, 0, 1, 0, 0, 0, 0, 1, 0, 0, 0, 0, 1] =
      Except.ok [1, 0, 0, 0, 0, 1, 0, 0, 0, 0, 1, 0, 0, 0, 0, 1] := by
  have h1 : invDet [1, 0, 0, 0, 1, 0, 0, 0, 0, 0, 1, 0, 0, 0, 0, 1] = 0 := by
    simp only [invDet, inv0, inv4, inv8, inv12, idx]
    norm_num
  have h2 : invDet [1, 0, 0, 0, 0, 1, 0, 0, 0, 0, 1, 0, 0, 0, 0, 1] ≠ 0 := by
    simp only [invDet, inv0, inv4, inv8, inv12, idx]
    norm_num
  constructor
  · exact (invert_singular_iff_det_zero 1 0 0 0 1 0 0 0 0 0 1 0 0 0 0 1).2.1.mpr h1
  · rw [(invert_singular_iff_det_zero 1 0 0 0 0 1 0 0 0 0 1 0 0 0 0 1).2.2 h2]
    simp only [Except.ok.injEq, List.cons.injEq, and_true]
    norm_num [inv0, inv1, inv2, inv3, inv4, inv5, inv6, inv7, inv8, inv9, inv10,
      inv11, inv12, inv13, inv14, inv15, invDet, idx]

/-- C10: the flat-array `Invert` returns the not-a-4x4-matrix error
exactly when the input's length differs from 16 — longer slices included —
whereas `FromArray` succeeds on any input with 16 or more elements. -/
theorem invert_length_exact_vs_fromArray :
    (∀ m : List GLFloat,
      Invert m = Except.error "Not a 4x4 matrix, needs 16 elements" ↔ m.length ≠ 16) ∧
    (∀ m : List GLFloat, 16 ≤ m.length → ∃ mm : Mat4, FromArray m = Except.ok mm) := by
  constructor
  · intro m
    by_cases h16 : m.length = 16
    · simp only [h16]
      by_cases hd : invDet m = 0
      · rw [invert_eq_error_of_det_zero m h16 hd]
        simp
      · rw [invert_eq_ok_of_det_ne_zero m h16 hd]
        simp
    · simp [Invert, h16]
  · intro m h
    exact ⟨⟨⟨m.getD 0 0, m.getD 1 0, m.getD 2 0, m.getD 3 0⟩,
            ⟨m.getD 4 0, m.getD 5 0, m.getD 6 0, m.getD 7 0⟩,
            ⟨m.getD 8 0, m.getD 9 0, m.getD 10 0, m.getD 11 0⟩,
            ⟨m.getD 12 0, m.getD 13 0, m.getD 14 0, m.getD 15 0⟩⟩,
           by rw [FromArray, if_neg (by omega)]⟩

/-- Witness for C10 at a concrete 17-element slice: `Invert` rejects it
while `FromArray` accepts it. -/
theorem invert_length_exact_vs_fromArray_witness :
    Invert [0, 0, 0, 0, 0, 0, 0, 0, 0, 0, 0, 0, 0, 0, 0, 0, 0] =
      Except.error "Not a 4x4 matrix, needs 16 elements" ∧
    ∃ mm : Mat4, FromArray [0, 0, 0, 0, 0, 0, 0, 0, 0, 0, 0, 0, 0, 0, 0, 0, 0] =
      Except.ok mm :=
  ⟨(invert_length_exact_vs_fromArray.1
      [0, 0, 0, 0, 0, 0, 0, 0, 0, 0, 0, 0, 0, 0, 0, 0, 0]).mpr (by decide),
   invert_length_exact_vs_fromArray.2
      [0, 0, 0, 0, 0, 0, 0, 0, 0, 0, 0, 0, 0, 0, 0, 0, 0] (by decide)⟩

/-- C8: `Frustum` returns the identity matrix exactly in the validation
failure cases (left = right, top = bottom, near = far, near < 0, or
far < 0); for every other parameter set no fallback occurs and the result
is the matrix built by the source's assignment sequence. -/
theorem frustum_fallback_spec (left right bottom top near far : GLFloat) :
    ((right = left ∨ top = bottom ∨ near = far ∨ near < 0 ∨ far < 0) →
      Frustum left right bottom top near far = IdentMat4) ∧
    (¬(right = left ∨ top = bottom ∨ near = far ∨ near < 0 ∨ far < 0) →
      Frustum left right bottom top near far =
        ⟨⟨2 * near / (right - left), 0, 0, 0⟩,
         ⟨0, 2 * near / (top - bottom), 0, 0⟩,
         ⟨(right + left) / (right - left), (top + bottom) / (top - bottom),
          -(far + near) / (far - near), 0⟩,
         ⟨0, 0, -(2 * far * near) / (far - near), 1⟩⟩) := by
  constructor
  · intro h
    rw [Frustum, if_pos h]
  · intro h
    rw [Frustum, if_neg h]
    exact rfl

/-- Witness for C8: a degenerate parameter set (left = right) falls back
to identity, and a valid parameter set produces the computed matrix. -/
theorem frustum_fallback_spec_witness :
    Frustum 1 1 0 1 0 1 = IdentMat4 ∧
    Frustum (-1) 1 (-1) 1 1 2 =
      ⟨⟨1, 0, 0, 0⟩, ⟨0, 1, 0, 0⟩, ⟨0, 0, -3, 0⟩, ⟨0, 0, -4, 1⟩⟩ := by
  constructor
  · exact (frustum_fallback_spec 1 1 0 1 0 1).1 (Or.inl rfl)
  · rw [(frustum_fallback_spec (-1) 1 (-1) 1 1 2).2 (by norm_num)]
    simp only [Mat4.mk.injEq, Vec4.mk.injEq]
    norm_num

/-- Helper: `Mat4.Copy` duplicates its argument exactly. -/
theorem copy_eq (m : Mat4) : m.Copy = m := rfl

/-- Helper: a single stack operation other than `Invert` keeps the
current-matrix pointer defined when it was defined before. -/
theorem apply_not_invert_isSome (g : GLMath) (st : MatrixStack) (op : Op)
    (st' : MatrixStack) (hop : op ≠ Op.invert) (hst : st.currMat.isSome = true)
    (h : apply g st op = some st') : st'.currMat.isSome = true := by
  obtain ⟨c, hc⟩ := Option.isSome_iff_exists.mp hst
  cases op with
  | push =>
      simp [apply, hc] at h
      subst h
      simp [hc]
  | pop =>
      cases hl : st.matrices.getLast? with
      | none =>
          simp [apply, hl] at h
          subst h
          exact hst
      | some m =>
          simp [apply, hl] at h
          subst h
          simp
  | invert => exact absurd rfl hop
  | rotateX deg => simp [apply, hc] at h; subst h; simp
  | rotateY deg => simp [apply, hc] at h; subst h; simp
  | rotateZ deg => simp [apply, hc] at h; subst h; simp
  | scale s => simp [apply, hc] at h; subst h; simp
  | translate offset => simp [apply, hc] at h; subst h; simp
  | mulM m => simp [apply, hc] at h; subst h; simp
  | ortho l r b t n f => simp [apply, hc] at h; subst h; simp
  | perspective fov a zn zf => simp [apply, hc] at h; subst h; simp

/-- C1 (amended): after `Init`, the current matrix stays defined under
any sequence of stack operations that does not contain `Invert`. -/
theorem stack_current_defined_without_invert (g : GLMath) (ops : List Op) :
    ∀ st st' : MatrixStack, (∀ op ∈ ops, op ≠ Op.invert) →
      st.currMat.isSome = true → applyList g st ops = some st' →
      st'.currMat.isSome = true := by
  induction ops with
  | nil =>
      intro st st' _ hst h
      simp [applyList] at h
      exact h ▸ hst
  | cons op rest ih =>
      intro st st' hops hst h
      simp only [applyList] at h
      cases happly : apply g st op with
      | none => rw [happly] at h; exact absurd h (by simp)
      | some stm =>
          rw [happly] at h
          exact ih stm st' (fun o ho => hops o (List.mem_cons_of_mem _ ho))
            (apply_not_invert_isSome g st op stm (hops op (List.mem_cons_self _ _)) hst happly) h

/-- Witness for amended C1: a non-`Invert` sequence starting from the
initialized stack ends with a defined current matrix. -/
theorem stack_current_defined_without_invert_witness :
    (⟨some (IdentMat4.Scale ⟨0, 0, 0, 1⟩), []⟩ : MatrixStack).currMat.isSome = true :=
  stack_current_defined_without_invert gZero [Op.scale ⟨0, 0, 0, 1⟩]
    ⟨some IdentMat4, []⟩ ⟨some (IdentMat4.Scale ⟨0, 0, 0, 1⟩), []⟩
    (by decide) rfl rfl

/-- Helper: `Mat4.Inverse` returns a nil pointer when the flattened
matrix's determinant is zero. -/
theorem inverse_eq_none_of_det_zero (m : Mat4) (hd : invDet m.ToArray = 0) :
    m.Inverse = none := by
  unfold Mat4.Inverse
  rw [invert_eq_error_of_det_zero m.ToArray rfl hd]

/-- C1 counterexample: from the initialized stack, `Scale` by
`(0,0,0,1)` makes the current matrix singular, and the following
`Invert` installs a nil pointer — the current matrix becomes undefined,
refuting the claimed invariant. -/
theorem stack_invert_singular_undefined_cex :
    applyList gZero (MatrixStack.Init ⟨none, []⟩) [Op.scale ⟨0, 0, 0, 1⟩, Op.invert] =
      some ⟨none, []⟩ := by
  have hS : IdentMat4.Scale ⟨0, 0, 0, 1⟩ =
      ⟨⟨0, 0, 0, 0⟩, ⟨0, 0, 0, 0⟩, ⟨0, 0, 0, 0⟩, ⟨0, 0, 0, 1⟩⟩ := by
    simp only [Mat4.Scale, Mat4.MulM, IdentMat4, Mat4.mk.injEq, Vec4.mk.injEq]
    norm_num
  have hdet : invDet (⟨⟨0, 0, 0, 0⟩, ⟨0, 0, 0, 0⟩, ⟨0, 0, 0, 0⟩,
      ⟨0, 0, 0, 1⟩⟩ : Mat4).ToArray = 0 := by
    simp only [Mat4.ToArray, invDet, inv0, inv4, inv8, inv12, idx]
    norm_num
  have hInv : (IdentMat4.Scale ⟨0, 0, 0, 1⟩).Inverse = none := by
    rw [hS]
    exact inverse_eq_none_of_det_zero _ hdet
  have h1 : apply gZero ⟨some IdentMat4, []⟩ (Op.scale ⟨0, 0, 0, 1⟩) =
      some ⟨some (IdentMat4.Scale ⟨0, 0, 0, 1⟩), []⟩ := rfl
  have h2 : apply gZero ⟨some (IdentMat4.Scale ⟨0, 0, 0, 1⟩), []⟩ Op.invert =
      some ⟨(IdentMat4.Scale ⟨0, 0, 0, 1⟩).Inverse, []⟩ := rfl
  show applyList gZero ⟨some IdentMat4, []⟩ [Op.scale ⟨0, 0, 0, 1⟩, Op.invert] =
    some ⟨none, []⟩
  simp only [applyList, h1, h2, hInv]

/-- Helper: running an operation sequence splits along an append. -/
theorem applyList_append (g : GLMath) (l1 : List Op) :
    ∀ (st : MatrixStack) (l2 : List Op),
      applyList g st (l1 ++ l2) =
        (applyList g st l1).bind fun stm => applyList g stm l2 := by
  induction l1 with
  | nil => intro st l2; simp [applyList]
  | cons op rest ih =>
      intro st l2
      simp only [List.cons_append, applyList]
      cases happly : apply g st op with
      | none => simp
      | some stm => simp [ih stm l2]

/-- Helper: `Push` appends a value copy of the current matrix and leaves
the current matrix unchanged, so N pushes append N copies. -/
theorem applyList_pushN (g : GLMath) (c : Mat4) :
    ∀ (n : Nat) (mats : List Mat4),
      applyList g ⟨some c, mats⟩ (List.replicate n Op.push) =
        some ⟨some c, mats ++ List.replicate n c⟩ := by
  intro n
  induction n with
  | zero => intro mats; simp [applyList]
  | succ k ih =>
      intro mats
      rw [List.replicate_succ]
      have hstep : apply g ⟨some c, mats⟩ Op.push = some ⟨some c, mats ++ [c]⟩ := rfl
      simp only [applyList, hstep]
      rw [ih (mats ++ [c])]
      simp [List.append_assoc, List.replicate_succ]

/-- Helper: `Pop` on a slice ending in `c` installs `c` and drops it. -/
theorem apply_pop_concat (g : GLMath) (cur : Option Mat4) (l : List Mat4) (c : Mat4) :
    apply g ⟨cur, l ++ [c]⟩ Op.pop = some ⟨some c, l⟩ := by
  simp [apply, List.getLast?_concat, List.dropLast_concat]

/-- Helper: n+1 pops on a stack whose slice ends in n+1 copies of `c`
restore `c` as the current matrix and remove the copies. -/
theorem applyList_popN (g : GLMath) (c : Mat4) :
    ∀ (n : Nat) (cur : Option Mat4) (mats : List Mat4),
      applyList g ⟨cur, mats ++ List.replicate (n + 1) c⟩
        (List.replicate (n + 1) Op.pop) = some ⟨some c, mats⟩ := by
  intro n
  induction n with
  | zero =>
      intro cur mats
      simp only [applyList, List.replicate_succ, List.replicate_zero, apply_pop_concat]
  | succ k ih =>
      intro cur mats
      have hsplit : mats ++ List.replicate (k + 2) c =
          (mats ++ List.replicate (k + 1) c) ++ [c] := by
        rw [List.replicate_succ' (n := k + 1)]
        rw [List.append_assoc]
      rw [hsplit, List.replicate_succ (n := k + 1)]
      simp only [applyList, apply_pop_concat]
      exact ih (some c) mats

/-- Helper: a transform-composing operation never touches the saved slice. -/
theorem apply_transform_matrices (g : GLMath) (st : MatrixStack) (op : Op)
    (st' : MatrixStack) (hop : op.isTransform = true) (h : apply g st op = some st') :
    st'.matrices = st.matrices := by
  cases op with
  | push => simp [Op.isTransform] at hop
  | pop => simp [Op.isTransform] at hop
  | invert =>
      cases hc : st.currMat with
      | none => simp [apply, hc] at h
      | some c => simp [apply, hc] at h; subst h; rfl
  | rotateX deg =>
      cases hc : st.currMat with
      | none => simp [apply, hc] at h
      | some c => simp [apply, hc] at h; subst h; rfl
  | rotateY deg =>
      cases hc : st.currMat with
      | none => simp [apply, hc] at h
      | some c => simp [apply, hc] at h; subst h; rfl
  | rotateZ deg =>
      cases hc : st.currMat with
      | none => simp [apply, hc] at h
      | some c => simp [apply, hc] at h; subst h; rfl
  | scale s =>
      cases hc : st.currMat with
      | none => simp [apply, hc] at h
      | some c => simp [apply, hc] at h; subst h; rfl
  | translate offset =>
      cases hc : st.currMat with
      | none => simp [apply, hc] at h
      | some c => simp [apply, hc] at h; subst h; rfl
  | mulM m =>
      cases hc : st.currMat with
      | none => simp [apply, hc] at h
      | some c => simp [apply, hc] at h; subst h; rfl
  | ortho l r b t n f =>
      cases hc : st.currMat with
      | none => simp [apply, hc] at h
      | some c => simp [apply, hc] at h; subst h; rfl
  | perspective fov a zn zf =>
      cases hc : st.currMat with
      | none => simp [apply, hc] at h
      | some c => simp [apply, hc] at h; subst h; rfl

/-- Helper: a successful run of transform-composing operations leaves
the saved slice unchanged. -/
theorem applyList_transform_matrices (g : GLMath) (ops : List Op) :
    ∀ st st' : MatrixStack, (∀ op ∈ ops, op.isTransform = true) →
      applyList g st ops = some st' → st'.matrices = st.matrices := by
  induction ops with
  | nil =>
      intro st st' _ h
      simp [applyList] at h
      exact h ▸ rfl
  | cons op rest ih =>
      intro st st' hops h
      simp only [applyList] at h
      cases happly : apply g st op with
      | none => rw [happly] at h; exact absurd h (by simp)
      | some stm =>
          rw [happly] at h
          rw [ih stm st' (fun o ho => hops o (List.mem_cons_of_mem _ ho)) h]
          exact apply_transform_matrices g st op stm (hops op (List.mem_cons_self _ _)) happly

/-- C4 (amended): for every N ≥ 1, N `Push` calls, then any successful
sequence of transform-composing operations, then N `Pop` calls restore
the current matrix (and the saved slice) to exactly the pre-sequence
value, because `Push` stores a value copy of the current matrix. -/
theorem push_pop_balance_restores (g : GLMath) (c : Mat4) (mats : List Mat4)
    (N : Nat) (ops : List Op) (stMid : MatrixStack)
    (hN : 1 ≤ N)
    (hops : ∀ op ∈ ops, op.isTransform = true)
    (hmid : applyList g ⟨some c, mats ++ List.replicate N c⟩ ops = some stMid) :
    applyList g ⟨some c, mats⟩
      (List.replicate N Op.push ++ ops ++ List.replicate N Op.pop) =
      some ⟨some c, mats⟩ := by
  obtain ⟨n, rfl⟩ : ∃ n, N = n + 1 := ⟨N - 1, by omega⟩
  rw [applyList_append g (List.replicate (n + 1) Op.push ++ ops)]
  rw [applyList_append g (List.replicate (n + 1) Op.push)]
  rw [applyList_pushN g c (n + 1) mats]
  simp only [Option.some_bind]
  rw [hmid]
  simp only [Option.some_bind]
  have hmats : stMid.matrices = mats ++ List.replicate (n + 1) c :=
    applyList_transform_matrices g ops _ stMid hops hmid
  have hsplit : stMid = ⟨stMid.currMat, mats ++ List.replicate (n + 1) c⟩ := by
    rw [← hmats]
  rw [hsplit]
  exact applyList_popN g c n stMid.currMat mats

/-- Witness for amended C4: one push, one translate, one pop restore the
identity current matrix and the empty saved slice exactly. -/
theorem push_pop_balance_restores_witness :
    applyList gZero ⟨some IdentMat4, []⟩
      (List.replicate 1 Op.push ++ [Op.translate ⟨1, 2, 3, 1⟩] ++ List.replicate 1 Op.pop) =
      some ⟨some IdentMat4, []⟩ :=
  push_pop_balance_restores gZero IdentMat4 [] 1 [Op.translate ⟨1, 2, 3, 1⟩]
    ⟨some (IdentMat4.Translate ⟨1, 2, 3, 1⟩), [IdentMat4]⟩
    (by decide) (by decide) rfl

/-- C4 counterexample: at N = 0 the claimed balance fails — zero pushes,
one `Translate`, zero pops leave the current matrix changed, not
restored to its pre-sequence value. -/
theorem push_pop_balance_n_zero_cex :
    applyList gZero ⟨some IdentMat4, []⟩
      (List.replicate 0 Op.push ++ [Op.translate ⟨1, 2, 3, 1⟩] ++ List.replicate 0 Op.pop) =
      some ⟨some (IdentMat4.Translate ⟨1, 2, 3, 1⟩), []⟩ ∧
    IdentMat4.Translate ⟨1, 2, 3, 1⟩ ≠ IdentMat4 := by
  constructor
  · rfl
  · have h1 : (IdentMat4.Translate ⟨1, 2, 3, 1⟩).c3.x = 1 := by
      simp only [Mat4.Translate, Mat4.MulM, IdentMat4]
      norm_num
    intro hEq
    rw [hEq] at h1
    norm_num [IdentMat4] at h1

end GoGLutils
